import Mathlib

/-!
Verification of the statistics-driven schema-optimization helpers of
pandas-gbq (files `pandas_gbq/schema.py` and `pandas_gbq/optimize.py`).

The Python code is shallowly embedded: schema fields (Python dicts with
keys `name`, `type` and an optional `mode`) become the structure `BqField`,
Python's arbitrary-precision integers become `Int`, floats used only for
an order comparison become `Rat`, and dict/key access that can raise
`KeyError` becomes `Except Unit`.
-/

/-- A BigQuery schema field: the dict `{"name": ..., "type": ..., "mode": ...}`.
The `mode` key may be absent in the source dicts, hence `Option`. -/
structure BqField where
  name : String
  type : String
  mode : Option String
deriving Repr, DecidableEq

/-- A BigQuery schema: the dict `{"fields": [...]}`. -/
structure Schema where
  fields : List BqField
deriving Repr, DecidableEq

/-- The decision values returned by the two `_determine_int_type` copies:
numpy fixed-width integer types, or the pandas nullable `"Int64"` string. -/
inductive NpIntType where
  | uint8 | uint16 | uint32 | uint64
  | int8 | int16 | int32
  | Int64
deriving Repr, DecidableEq

namespace PgSchema

/-- The `NUMPY_INT_RANGE` lookup table of `pandas_gbq/schema.py`
(closed ranges per numpy dtype name; the catch-all arm is never used by
the code, which only looks up the eight listed keys). -/
def NUMPY_INT_RANGE (k : String) : Int × Int :=
  if k = "int8" then (-128, 127)
  else if k = "int16" then (-32768, 32767)
  else if k = "int32" then (-2147483648, 2147483647)
  else if k = "int64" then (-9223372036854775808, 9223372036854775807)
  else if k = "uint8" then (0, 255)
  else if k = "uint16" then (0, 65535)
  else if k = "uint32" then (0, 4294967295)
  else if k = "uint64" then (0, 18446744073709551615)
  else (0, 0)

/-- `_determine_int_type(min, max, nullcount)` of `pandas_gbq/schema.py`. -/
def _determine_int_type (min max nullcount : Int) : NpIntType :=
  if nullcount ≠ 0 then
    -- return new pandas 0.24 Int64 since we have nulls
    NpIntType.Int64
  else if min ≥ 0 then
    if max ≤ (NUMPY_INT_RANGE "uint8").2 then NpIntType.uint8
    else if max ≤ (NUMPY_INT_RANGE "uint16").2 then NpIntType.uint16
    else if max ≤ (NUMPY_INT_RANGE "uint32").2 then NpIntType.uint32
    else NpIntType.Int64
  else
    if min ≥ (NUMPY_INT_RANGE "int8").1 ∧ max ≤ (NUMPY_INT_RANGE "int8").2 then
      NpIntType.int8
    else if min ≥ (NUMPY_INT_RANGE "int16").1 ∧ max ≤ (NUMPY_INT_RANGE "int16").2 then
      NpIntType.int16
    else if min ≥ (NUMPY_INT_RANGE "int32").1 ∧ max ≤ (NUMPY_INT_RANGE "int32").2 then
      NpIntType.int32
    else
      NpIntType.Int64

/-- `_determine_string_type(fraction_unique, threshold=0.5)` of
`pandas_gbq/schema.py`; floats are embedded as rationals, and the Python
default value `threshold=0.5` is passed explicitly as `1/2`. -/
def _determine_string_type (fraction_unique : Rat) (threshold : Rat) : String :=
  if fraction_unique < threshold then "category" else "object"

end PgSchema

namespace PgOptimize

/-- The `NUMPY_INT_RANGE` lookup table of `pandas_gbq/optimize.py`
(textually identical to the one in `schema.py`). -/
def NUMPY_INT_RANGE (k : String) : Int × Int :=
  if k = "int8" then (-128, 127)
  else if k = "int16" then (-32768, 32767)
  else if k = "int32" then (-2147483648, 2147483647)
  else if k = "int64" then (-9223372036854775808, 9223372036854775807)
  else if k = "uint8" then (0, 255)
  else if k = "uint16" then (0, 65535)
  else if k = "uint32" then (0, 4294967295)
  else if k = "uint64" then (0, 18446744073709551615)
  else (0, 0)

/-- `_determine_int_type(min, max, nullcount)` of `pandas_gbq/optimize.py`.
Unlike the `schema.py` copy, the unsigned fallback returns `np.uint64`. -/
def _determine_int_type (min max nullcount : Int) : NpIntType :=
  if nullcount ≠ 0 then
    NpIntType.Int64
  else if min ≥ 0 then
    if max ≤ (NUMPY_INT_RANGE "uint8").2 then NpIntType.uint8
    else if max ≤ (NUMPY_INT_RANGE "uint16").2 then NpIntType.uint16
    else if max ≤ (NUMPY_INT_RANGE "uint32").2 then NpIntType.uint32
    else NpIntType.uint64
  else
    if min ≥ (NUMPY_INT_RANGE "int8").1 ∧ max ≤ (NUMPY_INT_RANGE "int8").2 then
      NpIntType.int8
    else if min ≥ (NUMPY_INT_RANGE "int16").1 ∧ max ≤ (NUMPY_INT_RANGE "int16").2 then
      NpIntType.int16
    else if min ≥ (NUMPY_INT_RANGE "int32").1 ∧ max ≤ (NUMPY_INT_RANGE "int32").2 then
      NpIntType.int32
    else
      NpIntType.Int64

end PgOptimize

/-- The dict comprehension
`{field["name"]: i for i, field in enumerate(output_fields)}` of
`update_schema`: later entries overwrite earlier ones, so a name is sent
to the index of the last field bearing it, and to `none` when no field
bears it. -/
def field_indices (fields : List BqField) : String → Option Nat :=
  fields.enum.foldl
    (fun acc p => fun n => if n = p.2.name then some p.1 else acc n)
    (fun _ => none)

/-- `update_schema(schema_old, schema_new)` of `pandas_gbq/schema.py`:
the loop over the new fields either overwrites `output_fields` at the
index recorded for an existing name or appends the field at the end. -/
def update_schema (schema_old schema_new : Schema) : Schema :=
  ⟨schema_new.fields.foldl
    (fun output_fields field =>
      match field_indices schema_old.fields field.name with
      | some i => output_fields.set i field
      | none => output_fields ++ [field])
    schema_old.fields⟩

/-- The replacement step in C5's description of the merge result: an old
field is replaced wholesale by the new field of the same name when the
new schema has one, and kept otherwise. -/
def replaceByNew (new_fields : List BqField) (f : BqField) : BqField :=
  match new_fields.find? (fun g => g.name == f.name) with
  | some g => g
  | none => f

/-- The merge result as the spec describes it: every old field in its
original position, replaced via `replaceByNew`, followed by the new
fields whose names do not occur in the old schema, in their order. -/
def mergeSpecFields (old_fields new_fields : List BqField) : List BqField :=
  old_fields.map (replaceByNew new_fields) ++
    new_fields.filter (fun g => old_fields.all (fun f => f.name != g.name))

/-- `select_columns_by_type(schema, bq_type)` of `pandas_gbq/schema.py`:
the comprehension keeps `field["name"]` when `field["type"] == bq_type`
and `field["mode"] != "REPEATED"`. Reading `field["mode"]` on a field
without a mode key raises `KeyError`, embedded as `Except.error ()`; the
Python `and` short-circuits, so the mode key is only read when the type
matches. -/
def select_columns_by_type : List BqField → String → Except Unit (List String)
  | [], _ => Except.ok []
  | f :: rest, bq_type =>
    if f.type == bq_type then
      match f.mode with
      | none => Except.error ()
      | some m =>
          if m != "REPEATED" then
            match select_columns_by_type rest bq_type with
            | Except.ok names => Except.ok (f.name :: names)
            | Except.error e => Except.error e
          else select_columns_by_type rest bq_type
    else select_columns_by_type rest bq_type

/-- Python's `sep.join(parts)`. -/
def pyJoin (sep : String) : List String → String
  | [] => ""
  | [s] => s
  | s :: rest => s ++ sep ++ pyJoin sep rest

/-- The integer aggregate template of `generate_sql`, spelled with the
literal backslash-continuation whitespace of the Python string (the
continuation lines contribute 20 leading spaces each). -/
def int_template (column : String) : String :=
  "MIN(" ++ column ++ ") AS " ++ column ++ "_min, " ++
    "                    MAX(" ++ column ++ ") AS " ++ column ++ "_max, " ++
    "                    COUNTIF(" ++ column ++ " is NULL) AS " ++ column ++
    "_countifnull"

/-- The string aggregate template of `generate_sql` (the continuation
lines contribute 12 leading spaces each). -/
def str_template (column : String) : String :=
  "COUNT(DISTINCT " ++ column ++ ") AS " ++ column ++ "_countdistinct, " ++
    "            COUNT(" ++ column ++ ") AS " ++ column ++ "_count, " ++
    "            SAFE_DIVIDE(COUNT(DISTINCT " ++ column ++ "), " ++
    "            COUNT(" ++ column ++ ")) AS " ++ column ++ "_fractiondistinct"

/-- `generate_sql(table_reference_string, schema)` of `pandas_gbq/schema.py`.
The Python function falls through (`pass`) and returns `None` when the
joined select clause is empty, embedded as `ok none`; a `KeyError` from
`select_columns_by_type` propagates as `error`. `filter(None, ...)`
drops empty strings before the final join. -/
def generate_sql (table_reference_string : String) (schema : List BqField) :
    Except Unit (Option String) :=
  match select_columns_by_type schema "INTEGER" with
  | Except.error e => Except.error e
  | Except.ok int_cols =>
    match select_columns_by_type schema "STRING" with
    | Except.error e => Except.error e
    | Except.ok str_cols =>
      let select_clause_integers := pyJoin ", " (int_cols.map int_template)
      let select_clause_strings := pyJoin ", " (str_cols.map str_template)
      let select_clause := pyJoin ", "
        ([select_clause_integers, select_clause_strings].filter
          (fun s => s != ""))
      if select_clause != "" then
        Except.ok (some (pyJoin " "
          ["SELECT", select_clause,
           " FROM `" ++ table_reference_string ++ "`"]))
      else
        Except.ok none

/-- The names of the non-repeated fields of a given type, in schema
order: what `select_columns_by_type` computes when no type-matching
field is missing its mode key. -/
def qualNames (schema : List BqField) (bq_type : String) : List String :=
  (schema.filter
    (fun f => f.type == bq_type && f.mode != some "REPEATED")).map
    BqField.name

/-- Evaluations of the `schema.py` bounds table at the keys the code uses. -/
lemma sRange_eval :
    PgSchema.NUMPY_INT_RANGE "uint8" = (0, 255) ∧
    PgSchema.NUMPY_INT_RANGE "uint16" = (0, 65535) ∧
    PgSchema.NUMPY_INT_RANGE "uint32" = (0, 4294967295) ∧
    PgSchema.NUMPY_INT_RANGE "int8" = (-128, 127) ∧
    PgSchema.NUMPY_INT_RANGE "int16" = (-32768, 32767) ∧
    PgSchema.NUMPY_INT_RANGE "int32" = (-2147483648, 2147483647) := by
  refine ⟨rfl, rfl, rfl, rfl, rfl, rfl⟩

/-- Evaluations of the `optimize.py` bounds table at the keys the code uses. -/
lemma oRange_eval :
    PgOptimize.NUMPY_INT_RANGE "uint8" = (0, 255) ∧
    PgOptimize.NUMPY_INT_RANGE "uint16" = (0, 65535) ∧
    PgOptimize.NUMPY_INT_RANGE "uint32" = (0, 4294967295) ∧
    PgOptimize.NUMPY_INT_RANGE "int8" = (-128, 127) ∧
    PgOptimize.NUMPY_INT_RANGE "int16" = (-32768, 32767) ∧
    PgOptimize.NUMPY_INT_RANGE "int32" = (-2147483648, 2147483647) := by
  refine ⟨rfl, rfl, rfl, rfl, rfl, rfl⟩

lemma field_indices_append (fields : List BqField) (g : BqField)
    (n : String) :
    field_indices (fields ++ [g]) n =
      if n = g.name then some fields.length else field_indices fields n := by
  simp [field_indices, List.enum_append, List.foldl_append,
    List.enumFrom_singleton]

lemma field_indices_eq_none (fields : List BqField) (n : String) :
    field_indices fields n = none ↔ ∀ f ∈ fields, f.name ≠ n := by
  induction fields using List.reverseRecOn with
  | nil => simp [field_indices]
  | append_singleton l a ih =>
      rw [field_indices_append]
      by_cases h : n = a.name
      · rw [if_pos h]
        constructor
        · intro hc
          exact absurd hc (by simp)
        · intro hall
          exact absurd h.symm (hall a (by simp))
      · simp only [h, if_false, ih, List.forall_mem_append,
          List.mem_singleton, forall_eq]
        have : a.name ≠ n := fun hc => h hc.symm
        tauto

lemma field_indices_eq_some (fields : List BqField) (n : String) (i : Nat) :
    field_indices fields n = some i →
      ∃ h : i < fields.length, (fields.get ⟨i, h⟩).name = n := by
  induction fields using List.reverseRecOn with
  | nil => simp [field_indices]
  | append_singleton l a ih =>
      rw [field_indices_append]
      by_cases h : n = a.name
      · simp only [h, if_true, Option.some.injEq]
        rintro rfl
        refine ⟨by simp, ?_⟩
        have hlen : l.length < (l ++ [a]).length := by simp
        simp [List.get_eq_getElem, List.getElem_append_right (le_refl l.length)]
      · simp only [h, if_false]
        intro hfi
        obtain ⟨hi, hname⟩ := ih hfi
        refine ⟨by simp [Nat.lt_succ_of_lt, hi], ?_⟩
        simpa [List.get_eq_getElem, List.getElem_append_left hi] using hname

lemma field_indices_of_nodup (fields : List BqField) (i : Nat)
    (hnd : (fields.map BqField.name).Nodup) (h : i < fields.length) :
    field_indices fields (fields.get ⟨i, h⟩).name = some i := by
  induction fields using List.reverseRecOn with
  | nil => simp at h
  | append_singleton l a ih =>
      rw [field_indices_append]
      rcases Nat.lt_or_ge i l.length with hi | hi
      · have hget : ((l ++ [a]).get ⟨i, h⟩).name = (l.get ⟨i, hi⟩).name := by
          simp [List.get_eq_getElem, List.getElem_append_left hi]
        rw [hget]
        have hanotin : a.name ∉ l.map BqField.name := by
          have := (List.nodup_append.mp (by simpa using hnd)).2.2
          intro hmem
          exact this hmem (by simp)
        have hne : (l.get ⟨i, hi⟩).name ≠ a.name := by
          intro hc
          exact hanotin (hc ▸ List.mem_map_of_mem BqField.name (l.get_mem i hi))
        rw [if_neg hne]
        exact ih (List.nodup_append.mp (by simpa using hnd)).1 hi
      · have hi2 : i = l.length := by
          have hlen := h
          simp only [List.length_append, List.length_singleton] at hlen
          omega
        have hget : ((l ++ [a]).get ⟨i, h⟩) = a := by
          subst hi2
          simp only [List.get_eq_getElem]
          rw [List.getElem_append_right (le_refl l.length)]
          simp
        rw [hget, if_pos rfl, hi2]

lemma replaceByNew_name (p : List BqField) (f : BqField) :
    (replaceByNew p f).name = f.name := by
  cases hfind : p.find? (fun g => g.name == f.name) with
  | none => simp [replaceByNew, hfind]
  | some g =>
      have hbeq := List.find?_some hfind
      simp only [beq_iff_eq] at hbeq
      simp [replaceByNew, hfind, hbeq]

lemma replaceByNew_append_of_ne (p : List BqField) (f fo : BqField)
    (h : f.name ≠ fo.name) :
    replaceByNew (p ++ [f]) fo = replaceByNew p fo := by
  unfold replaceByNew
  rw [List.find?_append]
  have hb : (f.name == fo.name) = false := by simp [h]
  have hsingle : List.find? (fun g => g.name == fo.name) [f] = none := by
    simp [List.find?, hb]
  rw [hsingle, Option.or_none]

lemma replaceByNew_append_self (p : List BqField) (f fo : BqField)
    (hname : fo.name = f.name) (hfresh : f.name ∉ p.map BqField.name) :
    replaceByNew (p ++ [f]) fo = f := by
  have hp : List.find? (fun g => g.name == fo.name) p = none := by
    rw [List.find?_eq_none]
    intro g hg
    simp only [beq_iff_eq]
    intro hc
    exact hfresh (hname ▸ hc ▸ List.mem_map_of_mem BqField.name hg)
  unfold replaceByNew
  rw [List.find?_append, hp]
  simp [List.find?, hname]

lemma mergeSpecFields_nil_right (old_fields : List BqField) :
    mergeSpecFields old_fields [] = old_fields := by
  have hmap : List.map (replaceByNew []) old_fields =
      List.map id old_fields := by
    apply List.map_congr_left
    intro fo _
    simp [replaceByNew]
  simp [mergeSpecFields, hmap]

/-- Loop invariant for `update_schema`: after consuming a prefix `p` of
the new fields, the output list is exactly the merge result for `p`. -/
lemma update_loop_spec (old : List BqField)
    (hold : (old.map BqField.name).Nodup) :
    ∀ (rest p : List BqField),
      ((p ++ rest).map BqField.name).Nodup →
      rest.foldl
        (fun output_fields field =>
          match field_indices old field.name with
          | some i => output_fields.set i field
          | none => output_fields ++ [field])
        (mergeSpecFields old p) =
      mergeSpecFields old (p ++ rest) := by
  intro rest
  induction rest with
  | nil =>
      intro p _
      simp
  | cons f rest ih =>
      intro p hnd
      simp only [List.foldl_cons]
      have hstep :
          (match field_indices old f.name with
            | some i => (mergeSpecFields old p).set i f
            | none => mergeSpecFields old p ++ [f]) =
          mergeSpecFields old (p ++ [f]) := by
        cases hidx : field_indices old f.name with
        | none =>
            have hnot : ∀ fo ∈ old, fo.name ≠ f.name :=
              (field_indices_eq_none old f.name).mp hidx
            show mergeSpecFields old p ++ [f] = mergeSpecFields old (p ++ [f])
            unfold mergeSpecFields
            rw [List.filter_append]
            have hqf :
                List.filter (fun g => old.all (fun fd => fd.name != g.name))
                  [f] = [f] := by
              have hall : (old.all (fun fd => fd.name != f.name)) = true := by
                rw [List.all_eq_true]
                intro fo hfo
                rw [bne_iff_ne]
                exact hnot fo hfo
              simp [List.filter, hall]
            rw [hqf]
            have hmap : old.map (replaceByNew (p ++ [f])) =
                old.map (replaceByNew p) := by
              apply List.map_congr_left
              intro fo hfo
              exact replaceByNew_append_of_ne p f fo
                (fun hc => hnot fo hfo hc.symm)
            rw [hmap, List.append_assoc]
        | some i =>
            obtain ⟨hi, hname⟩ := field_indices_eq_some old f.name i hidx
            have hnameE : old[i].name = f.name := by
              simpa [List.get_eq_getElem] using hname
            have hfresh : f.name ∉ p.map BqField.name := by
              have hnd2 := hnd
              rw [List.map_append, List.nodup_append] at hnd2
              intro hmem
              exact hnd2.2.2 hmem (by simp)
            show (mergeSpecFields old p).set i f = mergeSpecFields old (p ++ [f])
            unfold mergeSpecFields
            rw [List.set_append, if_pos (by simpa using hi)]
            have hqf :
                List.filter (fun g => old.all (fun fd => fd.name != g.name))
                  [f] = [] := by
              have hall : (old.all (fun fd => fd.name != f.name)) = false := by
                rw [List.all_eq_false]
                refine ⟨old[i], List.getElem_mem hi, ?_⟩
                simp [hnameE]
              simp [List.filter, hall]
            rw [List.filter_append, hqf, List.append_nil]
            have hmap : (old.map (replaceByNew p)).set i f =
                old.map (replaceByNew (p ++ [f])) := by
              apply List.ext_getElem
              · simp
              · intro n h1 h2
                rw [List.getElem_set]
                by_cases hni : i = n
                · subst hni
                  rw [if_pos rfl, List.getElem_map]
                  exact (replaceByNew_append_self p f old[i] hnameE hfresh).symm
                · rw [if_neg hni, List.getElem_map, List.getElem_map]
                  have hlen : n < old.length := by simpa using h2
                  have hn2 : n < (old.map BqField.name).length := by
                    simpa using hlen
                  have hi2 : i < (old.map BqField.name).length := by
                    simpa using hi
                  have hne : f.name ≠ old[n].name := by
                    intro hc
                    apply hni
                    have hin : (old.map BqField.name)[n] =
                        (old.map BqField.name)[i] := by
                      rw [List.getElem_map, List.getElem_map]
                      rw [← hc, hnameE]
                    exact ((hold.getElem_inj_iff).mp hin).symm
                  exact (replaceByNew_append_of_ne p f old[n] hne).symm
            rw [hmap]
      rw [hstep]
      have hres := ih (p ++ [f]) (by simpa using hnd)
      simpa using hres

/-- The imperative merge of `update_schema` computes the declarative
merge result whenever both schemas have pairwise distinct field names. -/
lemma update_schema_fields_eq (old new : Schema)
    (hold : (old.fields.map BqField.name).Nodup)
    (hnew : (new.fields.map BqField.name).Nodup) :
    (update_schema old new).fields =
      mergeSpecFields old.fields new.fields := by
  have h := update_loop_spec old.fields hold new.fields [] (by simpa using hnew)
  rw [mergeSpecFields_nil_right] at h
  simpa [update_schema] using h

lemma append_left_ne_empty (s t : String) (h : s ≠ "") : s ++ t ≠ "" := by
  intro hc
  apply h
  apply String.ext
  have h2 : s.data ++ t.data = [] := by
    simpa [String.data_append] using String.ext_iff.mp hc
  exact (List.append_eq_nil.mp h2).1

lemma int_template_ne_empty (c : String) : int_template c ≠ "" := by
  unfold int_template
  simp only [String.append_assoc]
  exact append_left_ne_empty _ _ (by decide)

lemma str_template_ne_empty (c : String) : str_template c ≠ "" := by
  unfold str_template
  simp only [String.append_assoc]
  exact append_left_ne_empty _ _ (by decide)

lemma pyJoin_cons_ne_empty (sep a : String) (t : List String) (ha : a ≠ "") :
    pyJoin sep (a :: t) ≠ "" := by
  cases t with
  | nil => exact ha
  | cons b u => exact append_left_ne_empty _ _ (append_left_ne_empty _ _ ha)

lemma select_statement_eq (c t : String) :
    pyJoin " " ["SELECT", c, " FROM `" ++ t ++ "`"] =
      "SELECT " ++ c ++ "  FROM `" ++ t ++ "`" := by
  show ("SELECT" ++ " ") ++ ((c ++ " ") ++ (" FROM `" ++ t ++ "`")) = _
  rw [show ("SELECT " : String) = "SELECT" ++ " " from rfl,
    show ("  FROM `" : String) = " " ++ " FROM `" from rfl]
  simp only [String.append_assoc]

/-- When every type-matching field carries a mode key, the selector
succeeds with exactly the matching non-repeated names in schema order. -/
lemma select_columns_by_type_ok (schema : List BqField) (bq_type : String)
    (h : ∀ f ∈ schema, f.type = bq_type → (f.mode).isSome) :
    select_columns_by_type schema bq_type =
      Except.ok (qualNames schema bq_type) := by
  induction schema with
  | nil => rfl
  | cons f rest ih =>
      have hrest := ih (fun g hg hgt => h g (List.mem_cons_of_mem f hg) hgt)
      by_cases ht : f.type = bq_type
      · have hmode := h f (List.mem_cons_self f rest) ht
        cases hm : f.mode with
        | none => rw [hm] at hmode; simp at hmode
        | some m =>
            by_cases hrep : m = "REPEATED"
            · simp [select_columns_by_type, qualNames, ht, hm, hrep, hrest,
                List.filter_cons]
            · simp [select_columns_by_type, qualNames, ht, hm, hrep, hrest,
                List.filter_cons]
      · simp [select_columns_by_type, qualNames, ht, hrest, List.filter_cons]

lemma Schema_eq_of_fields_eq (s t : Schema) (h : s.fields = t.fields) :
    s = t := by
  cases s
  cases t
  simpa using h

lemma mergeSpecFields_self (l : List BqField)
    (h : (l.map BqField.name).Nodup) : mergeSpecFields l l = l := by
  unfold mergeSpecFields
  have hfilter :
      List.filter (fun g => l.all (fun f => f.name != g.name)) l = [] := by
    rw [List.filter_eq_nil_iff]
    intro g hg
    simp only [List.all_eq_true, bne_iff_ne, not_forall]
    exact ⟨g, hg, by simp⟩
  have hmap : List.map (replaceByNew l) l = List.map id l := by
    apply List.map_congr_left
    intro f hf
    cases hfind : l.find? (fun g => g.name == f.name) with
    | none =>
        exact absurd ((List.find?_eq_none.mp hfind) f hf) (by simp)
    | some g =>
        have hmem := List.mem_of_find?_eq_some hfind
        have hnm := List.find?_some hfind
        simp only [beq_iff_eq] at hnm
        have hgf : g = f := List.inj_on_of_nodup_map h hmem hf hnm
        simp [replaceByNew, hfind, hgf]
  simp [hmap, hfilter]

/-- C1: for every min, max and every nullCount ≠ 0, `_determine_int_type`
returns the nullable-wide-integer decision `Int64`, regardless of min/max. -/
theorem determine_int_type_nullcount_int64 (min max nullcount : Int)
    (h : nullcount ≠ 0) :
    PgSchema._determine_int_type min max nullcount = NpIntType.Int64 := by
  simp [PgSchema._determine_int_type, h]

/-- Witness for C1 at (min, max, nullCount) = (5, 7, 3). -/
theorem determine_int_type_nullcount_int64_witness :
    (3 : Int) ≠ 0 ∧ PgSchema._determine_int_type 5 7 3 = NpIntType.Int64 :=
  ⟨by decide, determine_int_type_nullcount_int64 5 7 3 (by decide)⟩

/-- C2 counterexample: the claim says that for min ≥ 0, nullCount = 0 and
max above 4294967295 the function returns unsigned-64; in `schema.py` it
returns `"Int64"` instead. -/
theorem determine_int_type_unsigned_counterexample :
    PgSchema._determine_int_type 0 4294967296 0 ≠ NpIntType.uint64 := by
  decide

/-- C2 (amended): for min ≥ 0 and nullCount = 0, `_determine_int_type` of
`schema.py` picks the smallest unsigned width covering max with boundaries
exactly at 255, 65535 and 4294967295, and when max exceeds 4294967295 it
returns the nullable-wide-integer decision `"Int64"` (not unsigned-64). -/
theorem determine_int_type_unsigned_widths (min max : Int) (h : min ≥ 0) :
    (max ≤ 255 → PgSchema._determine_int_type min max 0 = NpIntType.uint8) ∧
    (255 < max → max ≤ 65535 →
      PgSchema._determine_int_type min max 0 = NpIntType.uint16) ∧
    (65535 < max → max ≤ 4294967295 →
      PgSchema._determine_int_type min max 0 = NpIntType.uint32) ∧
    (4294967295 < max →
      PgSchema._determine_int_type min max 0 = NpIntType.Int64) := by
  refine ⟨fun h1 => ?_, fun h1 h2 => ?_, fun h1 h2 => ?_, fun h1 => ?_⟩ <;>
    simp only [PgSchema._determine_int_type, sRange_eval.1, sRange_eval.2.1,
      sRange_eval.2.2.1, sRange_eval.2.2.2.1, sRange_eval.2.2.2.2.1,
      sRange_eval.2.2.2.2.2] <;>
    split_ifs <;> first | rfl | omega

/-- Witness for C2 at the boundary pairs (255, 256), (65535, 65536),
(4294967295, 4294967296) with min = 0. -/
theorem determine_int_type_unsigned_widths_witness :
    (0 : Int) ≥ 0 ∧
    PgSchema._determine_int_type 0 255 0 = NpIntType.uint8 ∧
    PgSchema._determine_int_type 0 256 0 = NpIntType.uint16 ∧
    PgSchema._determine_int_type 0 65535 0 = NpIntType.uint16 ∧
    PgSchema._determine_int_type 0 65536 0 = NpIntType.uint32 ∧
    PgSchema._determine_int_type 0 4294967295 0 = NpIntType.uint32 ∧
    PgSchema._determine_int_type 0 4294967296 0 = NpIntType.Int64 :=
  ⟨by decide,
   (determine_int_type_unsigned_widths 0 255 (by decide)).1 (by decide),
   (determine_int_type_unsigned_widths 0 256 (by decide)).2.1 (by decide) (by decide),
   (determine_int_type_unsigned_widths 0 65535 (by decide)).2.1 (by decide) (by decide),
   (determine_int_type_unsigned_widths 0 65536 (by decide)).2.2.1 (by decide) (by decide),
   (determine_int_type_unsigned_widths 0 4294967295 (by decide)).2.2.1 (by decide) (by decide),
   (determine_int_type_unsigned_widths 0 4294967296 (by decide)).2.2.2 (by decide)⟩

/-- C3: for min < 0 and nullCount = 0, `_determine_int_type` picks the
smallest signed width (8, then 16, then 32 bits) whose closed interval
covers [min, max]; when none up to 32 bits covers it, it returns the
nullable-wide-integer decision `"Int64"`, and it never returns uint64. -/
theorem determine_int_type_signed_widths (min max : Int) (h : min < 0) :
    (-128 ≤ min → max ≤ 127 →
      PgSchema._determine_int_type min max 0 = NpIntType.int8) ∧
    (¬(-128 ≤ min ∧ max ≤ 127) → -32768 ≤ min → max ≤ 32767 →
      PgSchema._determine_int_type min max 0 = NpIntType.int16) ∧
    (¬(-32768 ≤ min ∧ max ≤ 32767) → -2147483648 ≤ min → max ≤ 2147483647 →
      PgSchema._determine_int_type min max 0 = NpIntType.int32) ∧
    (¬(-2147483648 ≤ min ∧ max ≤ 2147483647) →
      PgSchema._determine_int_type min max 0 = NpIntType.Int64) ∧
    PgSchema._determine_int_type min max 0 ≠ NpIntType.uint64 := by
  refine ⟨fun h1 h2 => ?_, fun h1 h2 h3 => ?_, fun h1 h2 h3 => ?_,
    fun h1 => ?_, ?_⟩ <;>
    simp only [PgSchema._determine_int_type, sRange_eval.1, sRange_eval.2.1,
      sRange_eval.2.2.1, sRange_eval.2.2.2.1, sRange_eval.2.2.2.2.1,
      sRange_eval.2.2.2.2.2] <;>
    split_ifs <;> first | rfl | omega | decide

/-- Witness for C3 at (min, max) = (-129, 0): signed-16, not unsigned. -/
theorem determine_int_type_signed_widths_witness :
    (-129 : Int) < 0 ∧
    PgSchema._determine_int_type (-129) 0 0 = NpIntType.int16 ∧
    PgSchema._determine_int_type (-2147483649) 0 0 = NpIntType.Int64 :=
  ⟨by decide,
   (determine_int_type_signed_widths (-129) 0 (by decide)).2.1
     (by decide) (by decide) (by decide),
   (determine_int_type_signed_widths (-2147483649) 0 (by decide)).2.2.2.1
     (by decide)⟩

/-- C4: `_determine_string_type` returns the categorical decision
`"category"` exactly when the distinct fraction is strictly below the
threshold and the free-text decision `"object"` otherwise; a fraction
equal to the threshold (e.g. 0.5 against the default 0.5) is free-text. -/
theorem determine_string_type_threshold (fraction_unique threshold : Rat) :
    (PgSchema._determine_string_type fraction_unique threshold = "category"
      ↔ fraction_unique < threshold) ∧
    (PgSchema._determine_string_type fraction_unique threshold = "object"
      ↔ ¬ fraction_unique < threshold) ∧
    PgSchema._determine_string_type (49/100) (1/2) = "category" ∧
    PgSchema._determine_string_type (1/2) (1/2) = "object" := by
  refine ⟨?_, ?_,
    by norm_num [PgSchema._determine_string_type],
    by norm_num [PgSchema._determine_string_type]⟩ <;>
    by_cases hlt : fraction_unique < threshold <;>
    simp [PgSchema._determine_string_type, hlt]

/-- C10 counterexample: the two `_determine_int_type` copies disagree at
(min, max, nullCount) = (0, 4294967296, 0): `schema.py` returns `"Int64"`
while `optimize.py` returns uint64. -/
theorem determine_int_type_copies_disagree :
    PgSchema._determine_int_type 0 4294967296 0 ≠
      PgOptimize._determine_int_type 0 4294967296 0 := by
  decide

/-- C10 (amended): the two `_determine_int_type` copies agree on every
input except the triples with nullCount = 0, min ≥ 0 and
max > 4294967295, where `schema.py` gives `"Int64"` and `optimize.py`
gives uint64. -/
theorem determine_int_type_copies_agree (min max nullcount : Int)
    (h : ¬(nullcount = 0 ∧ 0 ≤ min ∧ 4294967295 < max)) :
    PgSchema._determine_int_type min max nullcount =
      PgOptimize._determine_int_type min max nullcount := by
  simp only [PgSchema._determine_int_type, sRange_eval.1, sRange_eval.2.1,
    sRange_eval.2.2.1, sRange_eval.2.2.2.1, sRange_eval.2.2.2.2.1,
    sRange_eval.2.2.2.2.2, PgOptimize._determine_int_type, oRange_eval.1,
    oRange_eval.2.1, oRange_eval.2.2.1, oRange_eval.2.2.2.1,
    oRange_eval.2.2.2.2.1, oRange_eval.2.2.2.2.2]
  split_ifs <;> first | rfl | omega

/-- Witness for C10 at (min, max, nullCount) = (-5, 10, 0). -/
theorem determine_int_type_copies_agree_witness :
    ¬((0 : Int) = 0 ∧ (0 : Int) ≤ -5 ∧ (4294967295 : Int) < 10) ∧
    PgSchema._determine_int_type (-5) 10 0 =
      PgOptimize._determine_int_type (-5) 10 0 :=
  ⟨by decide, determine_int_type_copies_agree (-5) 10 0 (by decide)⟩

/-- C5 counterexample: with a duplicated name in the old schema's fields,
`update_schema` rewrites only the last position bearing the name (the
dict index keeps the last index), while the claim's description — every
old field replaced by the same-named new field — rewrites both. -/
theorem update_schema_replace_counterexample :
    update_schema ⟨[⟨"b", "INTEGER", none⟩, ⟨"b", "STRING", none⟩]⟩
        ⟨[⟨"b", "FLOAT", none⟩]⟩ ≠
      ⟨mergeSpecFields [⟨"b", "INTEGER", none⟩, ⟨"b", "STRING", none⟩]
        [⟨"b", "FLOAT", none⟩]⟩ := by
  decide

/-- C5 (amended): whenever the old and the new schema each have pairwise
distinct field names, `update_schema` returns every old field in its
original position, replaced wholesale by the same-named new field when
one exists, followed by the new fields whose names do not occur in the
old schema, in their relative order. -/
theorem update_schema_replace_append (old new : Schema)
    (hold : (old.fields.map BqField.name).Nodup)
    (hnew : (new.fields.map BqField.name).Nodup) :
    update_schema old new = ⟨mergeSpecFields old.fields new.fields⟩ :=
  Schema_eq_of_fields_eq _ _ (update_schema_fields_eq old new hold hnew)

/-- Witness for C5 on the spec's example: old = [{a,INTEGER},{b,STRING}],
new = [{b,FLOAT},{c,BOOLEAN}]. -/
theorem update_schema_replace_append_witness :
    (([⟨"a", "INTEGER", none⟩, ⟨"b", "STRING", none⟩] :
        List BqField).map BqField.name).Nodup ∧
    (([⟨"b", "FLOAT", none⟩, ⟨"c", "BOOLEAN", none⟩] :
        List BqField).map BqField.name).Nodup ∧
    update_schema ⟨[⟨"a", "INTEGER", none⟩, ⟨"b", "STRING", none⟩]⟩
        ⟨[⟨"b", "FLOAT", none⟩, ⟨"c", "BOOLEAN", none⟩]⟩ =
      ⟨mergeSpecFields [⟨"a", "INTEGER", none⟩, ⟨"b", "STRING", none⟩]
        [⟨"b", "FLOAT", none⟩, ⟨"c", "BOOLEAN", none⟩]⟩ :=
  ⟨by decide, by decide,
   update_schema_replace_append
     ⟨[⟨"a", "INTEGER", none⟩, ⟨"b", "STRING", none⟩]⟩
     ⟨[⟨"b", "FLOAT", none⟩, ⟨"c", "BOOLEAN", none⟩]⟩
     (by decide) (by decide)⟩

/-- C6: merging a schema with pairwise distinct field names with itself
returns it unchanged. -/
theorem update_schema_idempotent (S : Schema)
    (h : (S.fields.map BqField.name).Nodup) :
    update_schema S S = S :=
  Schema_eq_of_fields_eq _ _
    ((update_schema_fields_eq S S h h).trans (mergeSpecFields_self S.fields h))

/-- Witness for C6 at S = ⟨[{a,INTEGER},{b,STRING}]⟩. -/
theorem update_schema_idempotent_witness :
    ((Schema.mk [⟨"a", "INTEGER", none⟩, ⟨"b", "STRING", none⟩]).fields.map
        BqField.name).Nodup ∧
    update_schema ⟨[⟨"a", "INTEGER", none⟩, ⟨"b", "STRING", none⟩]⟩
        ⟨[⟨"a", "INTEGER", none⟩, ⟨"b", "STRING", none⟩]⟩ =
      ⟨[⟨"a", "INTEGER", none⟩, ⟨"b", "STRING", none⟩]⟩ :=
  ⟨by decide,
   update_schema_idempotent
     ⟨[⟨"a", "INTEGER", none⟩, ⟨"b", "STRING", none⟩]⟩ (by decide)⟩

/-- C7 counterexample: merging an empty old schema with a new schema that
repeats a name yields a field sequence with a duplicated name, so the
claim does not hold for every pair of input schemas. -/
theorem update_schema_nodup_counterexample :
    ¬ (((update_schema ⟨[]⟩
          ⟨[⟨"a", "INTEGER", none⟩, ⟨"a", "FLOAT", none⟩]⟩).fields.map
        BqField.name).Nodup) := by
  decide

/-- C7 (amended): whenever the old and the new schema each have pairwise
distinct field names, no two fields of the merge result share a name. -/
theorem update_schema_names_nodup (old new : Schema)
    (hold : (old.fields.map BqField.name).Nodup)
    (hnew : (new.fields.map BqField.name).Nodup) :
    ((update_schema old new).fields.map BqField.name).Nodup := by
  rw [update_schema_fields_eq old new hold hnew]
  unfold mergeSpecFields
  have hnames : (old.fields.map (replaceByNew new.fields)).map BqField.name =
      old.fields.map BqField.name := by
    rw [List.map_map]
    apply List.map_congr_left
    intro f _
    simp [Function.comp, replaceByNew_name]
  rw [List.map_append, hnames, List.nodup_append]
  refine ⟨hold, ?_, ?_⟩
  · exact ((List.filter_sublist new.fields).map BqField.name).nodup hnew
  · intro a ha hb
    rw [List.mem_map] at ha hb
    obtain ⟨f, hf, hfa⟩ := ha
    obtain ⟨g, hg, hga⟩ := hb
    rw [List.mem_filter] at hg
    have hq := hg.2
    rw [List.all_eq_true] at hq
    have := hq f hf
    rw [bne_iff_ne] at this
    exact this (hfa.trans hga.symm)

/-- C9 counterexample: a field whose mode entry is absent is not treated
as NULLABLE and included — the selector raises a `KeyError` (embedded as
an error result) on the first type-matching field without a mode key. -/
theorem select_columns_missing_mode_counterexample :
    select_columns_by_type [⟨"a", "INTEGER", none⟩] "INTEGER" =
        Except.error () ∧
      select_columns_by_type [⟨"a", "INTEGER", none⟩] "INTEGER" ≠
        Except.ok ["a"] :=
  ⟨rfl, fun hc => Except.noConfusion hc⟩

/-- C9 (amended): when every type-matching field carries a mode entry,
`select_columns_by_type` returns exactly the names of the fields whose
type equals the requested type and whose mode is not REPEATED, in schema
order; a type-matching field without a mode entry instead makes the
call raise a `KeyError` rather than being treated as NULLABLE. -/
theorem select_columns_by_type_spec (schema : List BqField)
    (bq_type : String)
    (h : ∀ f ∈ schema, f.type = bq_type → (f.mode).isSome) :
    select_columns_by_type schema bq_type =
      Except.ok (qualNames schema bq_type) :=
  select_columns_by_type_ok schema bq_type h

/-- Witness for C9 on [{x,INTEGER,NULLABLE},{y,INTEGER,REPEATED},
{z,STRING,NULLABLE}] requesting INTEGER: only x qualifies. -/
theorem select_columns_by_type_spec_witness :
    (∀ f ∈ ([⟨"x", "INTEGER", some "NULLABLE"⟩,
        ⟨"y", "INTEGER", some "REPEATED"⟩,
        ⟨"z", "STRING", some "NULLABLE"⟩] : List BqField),
      f.type = "INTEGER" → (f.mode).isSome) ∧
    select_columns_by_type [⟨"x", "INTEGER", some "NULLABLE"⟩,
        ⟨"y", "INTEGER", some "REPEATED"⟩,
        ⟨"z", "STRING", some "NULLABLE"⟩] "INTEGER" =
      Except.ok ["x"] :=
  ⟨by decide,
   (select_columns_by_type_spec [⟨"x", "INTEGER", some "NULLABLE"⟩,
       ⟨"y", "INTEGER", some "REPEATED"⟩,
       ⟨"z", "STRING", some "NULLABLE"⟩] "INTEGER" (by decide)).trans
     rfl⟩

/-- C8 counterexample: on a schema whose single field is INTEGER-typed
but carries no mode entry, `generate_sql` raises a `KeyError` (embedded
as an error result) instead of returning the empty/absent sentinel or
any well-formed statement, so the claim fails as stated over every
schema. -/
theorem generate_sql_missing_mode_counterexample :
    generate_sql "p.d.t" [⟨"a", "INTEGER", none⟩] = Except.error () ∧
      generate_sql "p.d.t" [⟨"a", "INTEGER", none⟩] ≠ Except.ok none :=
  ⟨rfl, fun hc => Except.noConfusion hc⟩

/-- C8 (amended): when every INTEGER- or STRING-typed field carries a
mode entry, `generate_sql` returns the `None` sentinel when there is no
qualifying non-repeated INTEGER or STRING column, and when exactly one
of the two type classes has qualifying columns it returns the statement
built from that class's clause alone — the empty clause is dropped
before the comma join, so no dangling comma or empty clause segment
ever appears; an INTEGER- or STRING-typed field without a mode entry
instead makes the call raise a `KeyError`. -/
theorem generate_sql_empty_and_single_class (tref : String)
    (schema : List BqField)
    (h : ∀ f ∈ schema, (f.type = "INTEGER" ∨ f.type = "STRING") →
      (f.mode).isSome) :
    (qualNames schema "INTEGER" = [] → qualNames schema "STRING" = [] →
      generate_sql tref schema = Except.ok none) ∧
    (qualNames schema "INTEGER" = [] → qualNames schema "STRING" ≠ [] →
      generate_sql tref schema = Except.ok (some
        ("SELECT " ++
          pyJoin ", " ((qualNames schema "STRING").map str_template) ++
          "  FROM `" ++ tref ++ "`"))) ∧
    (qualNames schema "INTEGER" ≠ [] → qualNames schema "STRING" = [] →
      generate_sql tref schema = Except.ok (some
        ("SELECT " ++
          pyJoin ", " ((qualNames schema "INTEGER").map int_template) ++
          "  FROM `" ++ tref ++ "`"))) := by
  have hint := select_columns_by_type_ok schema "INTEGER"
    (fun f hf hft => h f hf (Or.inl hft))
  have hstr := select_columns_by_type_ok schema "STRING"
    (fun f hf hft => h f hf (Or.inr hft))
  refine ⟨fun hI hS => ?_, fun hI hS => ?_, fun hI hS => ?_⟩
  · simp [generate_sql, hint, hstr, hI, hS, pyJoin]
  · obtain ⟨g, gs, hgs⟩ := List.exists_cons_of_ne_nil hS
    have hJ : (pyJoin ", "
        ((qualNames schema "STRING").map str_template) != "") = true := by
      rw [hgs, bne_iff_ne, List.map_cons]
      exact pyJoin_cons_ne_empty _ _ _ (str_template_ne_empty g)
    rw [← select_statement_eq]
    simp only [generate_sql, hint, hstr, hI, List.map_nil, pyJoin,
      List.filter_cons, bne_self_eq_false, Bool.false_eq_true, if_false,
      hJ, if_true, List.filter_nil]
  · obtain ⟨g, gs, hgs⟩ := List.exists_cons_of_ne_nil hI
    have hJ : (pyJoin ", "
        ((qualNames schema "INTEGER").map int_template) != "") = true := by
      rw [hgs, bne_iff_ne, List.map_cons]
      exact pyJoin_cons_ne_empty _ _ _ (int_template_ne_empty g)
    rw [← select_statement_eq]
    simp only [generate_sql, hint, hstr, hS, List.map_nil, pyJoin,
      List.filter_cons, bne_self_eq_false, Bool.false_eq_true, if_false,
      hJ, if_true, List.filter_nil]

/-- Witness for C8 at a schema with one INTEGER column and no STRING
column, table reference p.d.t. -/
theorem generate_sql_empty_and_single_class_witness :
    (∀ f ∈ ([⟨"x", "INTEGER", some "NULLABLE"⟩] : List BqField),
      (f.type = "INTEGER" ∨ f.type = "STRING") → (f.mode).isSome) ∧
    qualNames [⟨"x", "INTEGER", some "NULLABLE"⟩] "INTEGER" ≠ [] ∧
    qualNames [⟨"x", "INTEGER", some "NULLABLE"⟩] "STRING" = [] ∧
    generate_sql "p.d.t" [⟨"x", "INTEGER", some "NULLABLE"⟩] =
      Except.ok (some
        ("SELECT " ++
          pyJoin ", "
            ((qualNames [⟨"x", "INTEGER", some "NULLABLE"⟩]
              "INTEGER").map int_template) ++
          "  FROM `" ++ "p.d.t" ++ "`")) :=
  ⟨by decide, by decide, by decide,
   (generate_sql_empty_and_single_class "p.d.t"
     [⟨"x", "INTEGER", some "NULLABLE"⟩] (by decide)).2.2
     (by decide) (by decide)⟩

/-- Witness for C7 at old = ⟨[{a,INTEGER}]⟩, new = ⟨[{a,FLOAT},{c,BOOLEAN}]⟩. -/
theorem update_schema_names_nodup_witness :
    (([⟨"a", "INTEGER", none⟩] : List BqField).map BqField.name).Nodup ∧
    (([⟨"a", "FLOAT", none⟩, ⟨"c", "BOOLEAN", none⟩] :
        List BqField).map BqField.name).Nodup ∧
    ((update_schema ⟨[⟨"a", "INTEGER", none⟩]⟩
        ⟨[⟨"a", "FLOAT", none⟩, ⟨"c", "BOOLEAN", none⟩]⟩).fields.map
      BqField.name).Nodup :=
  ⟨by decide, by decide,
   update_schema_names_nodup ⟨[⟨"a", "INTEGER", none⟩]⟩
     ⟨[⟨"a", "FLOAT", none⟩, ⟨"c", "BOOLEAN", none⟩]⟩ (by decide) (by decide)⟩
